import Mathlib

/-!
Verification of the BGP Link-State NLRI decoding and attribute rendering engine
(bgpd/bgp_bgpls_nlri.c) and the IS-IS identifier formatting helper (lib/isis.c).

Conventions of the shallow embedding:
* A byte buffer is a `List Nat`, each entry one octet as it appears on the wire.
* The FRR stream reader (lib/stream.c, outside the source excerpt) is modelled
  after the Byte Cursor of the spec as realized by the FRR stream library: a
  bounded read whose width exceeds the remaining bytes yields zero, copies
  nothing and leaves the read position unchanged, and the surrounding decode
  continues (the in-scope decoders never observe a read failure).
* Multi-byte integer fields are modelled by the value they carry in network
  byte order, so the ntohs and ntohl conversions of the source are the
  identity here; host-endianness artifacts are outside the model.
* Loops whose progress depends on the read position use explicit fuel and
  return `Option`, `none` marking fuel exhaustion (the C loop not terminating
  within the allotted steps).
-/

/-- Number of readable bytes remaining behind the read pointer of a stream. -/
def streamRemaining (data : List Nat) (getp : Nat) : Nat :=
  data.length - getp

/-- Byte of a buffer at an absolute index, zero when out of range. -/
def byteAt (l : List Nat) (i : Nat) : Nat :=
  l.getD i 0

/-- Big-endian value of the n bytes of a buffer starting at index i. -/
def beBytes (l : List Nat) (i n : Nat) : Nat :=
  (List.range n).foldl (fun acc k => acc * 256 + byteAt l (i + k)) 0

/-- FRR stream: an immutable byte buffer plus the read position getp
(struct stream of lib/stream.c, outside the source excerpt). -/
structure FrrStream where
  data : List Nat
  getp : Nat
deriving DecidableEq, Repr

/-- Bytes readable from the current position (STREAM_READABLE). -/
def FrrStream.readable (s : FrrStream) : Nat :=
  streamRemaining s.data s.getp

/-- Value of stream_get_getp: the current read position. -/
def stream_get_getp (s : FrrStream) : Nat :=
  s.getp

/-- Read one octet (stream_getc): on underrun return zero without advancing. -/
def stream_getc (s : FrrStream) : Nat × FrrStream :=
  if 1 ≤ s.readable then
    (byteAt s.data s.getp, { s with getp := s.getp + 1 })
  else (0, s)

/-- Read a big-endian 16-bit word (stream_getw): on underrun return zero
without advancing. -/
def stream_getw (s : FrrStream) : Nat × FrrStream :=
  if 2 ≤ s.readable then
    (beBytes s.data s.getp 2, { s with getp := s.getp + 2 })
  else (0, s)

/-- Read a big-endian 64-bit quad (stream_getq): on underrun return zero
without advancing. -/
def stream_getq (s : FrrStream) : Nat × FrrStream :=
  if 8 ≤ s.readable then
    (beBytes s.data s.getp 8, { s with getp := s.getp + 8 })
  else (0, s)

/-- Read an IPv4 address as its 4 network-order octets (stream_get_ipv4): on
underrun return zero without advancing. -/
def stream_get_ipv4 (s : FrrStream) : Nat × FrrStream :=
  if 4 ≤ s.readable then
    (beBytes s.data s.getp 4, { s with getp := s.getp + 4 })
  else (0, s)

/-- Copy n bytes out of the stream (stream_get): on underrun copy nothing and
do not advance, returning the empty list. -/
def stream_get (s : FrrStream) (n : Nat) : List Nat × FrrStream :=
  if n ≤ s.readable then
    ((s.data.drop s.getp).take n, { s with getp := s.getp + n })
  else ([], s)

/-- Overwrite the first bytes of a destination buffer with the copied bytes,
as memcpy into the start of a value field does; copying nothing leaves the
destination unchanged. -/
def copyIn (dst src : List Nat) : List Nat :=
  src ++ dst.drop src.length

/-- Write a value at an index of a buffer, extending it with zero bytes when
the index is past its end (array cell assignment of the C model). -/
def setExt (l : List Nat) (i v : Nat) : List Nat :=
  if i < l.length then l.set i v
  else (l ++ List.replicate (i - l.length) 0) ++ [v]

/-!
TLV type-code and length constants. Modelled from the spec: the numeric
values come from the wire-format section of the spec and RFC 7752 section 3,
because the header bgp_ls.h that defines the C macros is not part of the
source excerpt.
-/

/-- Modelled from the spec: top-level NLRI TLV code 256. -/
def BGP_NLRI_TLV_LOCAL_NODE_DESCRIPTORS : Nat := 256
/-- Modelled from the spec: top-level NLRI TLV code 257. -/
def BGP_NLRI_TLV_REMOTE_NODE_DESCRIPTORS : Nat := 257
/-- Modelled from the spec: top-level NLRI TLV code 258. -/
def BGP_NLRI_TLV_LINK_LOCAL_REMOTE_IDENTIFIERS : Nat := 258
/-- Modelled from the spec: top-level NLRI TLV code 259. -/
def BGP_NLRI_TLV_IPV4_INTERFACE_ADDRESS : Nat := 259
/-- Modelled from the spec: top-level NLRI TLV code 260. -/
def BGP_NLRI_TLV_IPV4_NEIGHBOR_ADDRESS : Nat := 260
/-- Modelled from the spec: top-level NLRI TLV code 261. -/
def BGP_NLRI_TLV_IPV6_INTERFACE_ADDRESS : Nat := 261
/-- Modelled from the spec: top-level NLRI TLV code 262. -/
def BGP_NLRI_TLV_IPV6_NEIGHBOR_ADDRESS : Nat := 262
/-- Modelled from the spec: NLRI TLV code 263, shared by link and attribute
numbering. -/
def BGP_NLRI_TLV_MULTI_TOPOLOGY_ID : Nat := 263
/-- Modelled from the spec and RFC 7752: OSPF route type TLV code 264. -/
def BGP_NLRI_TLV_OSPF_ROUTE_TYPE : Nat := 264
/-- Modelled from the spec and RFC 7752: IP reachability TLV code 265. -/
def BGP_NLRI_TLV_IP_REACHABILITY_INFORMATION : Nat := 265
/-- Modelled from the spec: descriptor sub-TLV code 512. -/
def BGP_NLRI_TLV_AUTONOMOUS_SYSTEM : Nat := 512
/-- Modelled from the spec: descriptor sub-TLV code 513. -/
def BGP_NLRI_TLV_BGP_LS_IDENTIFIER : Nat := 513
/-- Modelled from the spec: descriptor sub-TLV code 514. -/
def BGP_NLRI_TLV_AREA_ID : Nat := 514
/-- Modelled from the spec: descriptor sub-TLV code 515. -/
def BGP_NLRI_TLV_IGP_ROUTER_ID : Nat := 515
/-- Modelled from the spec: fixed 4-byte length of the AS sub-TLV. -/
def BGP_NLRI_TLV_LEN_AUTONOMOUS_SYSTEM : Nat := 4
/-- Modelled from the spec: fixed 4-byte length of the BGP-LS id sub-TLV. -/
def BGP_NLRI_TLV_LEN_BGP_LS_IDENTIFIER : Nat := 4
/-- Modelled from the spec: fixed 4-byte length of the area id sub-TLV. -/
def BGP_NLRI_TLV_LEN_AREA_ID : Nat := 4
/-- Modelled from the spec: IGP router id length tag for IS-IS non pseudonode. -/
def BGP_NLRI_IS_IS_NON_PSEUDONODE : Nat := 6
/-- Modelled from the spec: IGP router id length tag for IS-IS pseudonode. -/
def BGP_NLRI_IS_IS_PSEUDONODE : Nat := 7
/-- Modelled from the spec: IGP router id length tag for OSPF non pseudonode. -/
def BGP_NLRI_OSPF_NON_PSEUDONODE : Nat := 4
/-- Modelled from the spec: IGP router id length tag for OSPF pseudonode. -/
def BGP_NLRI_OSPF_PSEUDONODE : Nat := 8
/-- Modelled from the spec: fixed 16-byte IPv6 interface address length. -/
def BGP_NLRI_TLV_LEN_IPV6_INTERFACE_ADDRESS : Nat := 16
/-- Modelled from the spec: fixed 16-byte IPv6 neighbor address length. -/
def BGP_NLRI_TLV_LEN_IPV6_NEIGHBOR_ADDRESS : Nat := 16

/-- Shared 9-byte NLRI header (struct ext_hdr of mp_bgpls_nlri): protocol id
octet and the 64-bit routing-universe identifier. -/
structure BgpLsExtHdr where
  proto_id : Nat
  nlri_identifier : Nat
deriving DecidableEq, Repr

/-- Decoder target state: the fields of attr mp_bgpls_nlri written by the
three NLRI decoders. The node value fields are the raw descriptor byte
buffers the source copies into with stream_get; llri holds the two 16-bit
link identifiers; i4ia, i4na the IPv4 interface and neighbor addresses;
i6ia, i6na the IPv6 buffers; mid the multi-topology id array; ort the OSPF
route type octet; ipreach_p the prefix octet of ipreach (field named prefix
in the source) and ipreach_value its value buffer. -/
structure MpBgplsNlri where
  ext_hdr : BgpLsExtHdr
  local_node : List Nat
  remote_node : List Nat
  llri_local : Nat
  llri_remote : Nat
  i4ia : Nat
  i4na : Nat
  i6ia : List Nat
  i6na : List Nat
  mid : List Nat
  ort : Nat
  ipreach_p : Nat
  ipreach_value : List Nat
deriving DecidableEq, Repr

/-- Zero-initialized decoder state, as the caller allocates it. -/
def initAttr : MpBgplsNlri :=
  { ext_hdr := ⟨0, 0⟩
    local_node := []
    remote_node := []
    llri_local := 0
    llri_remote := 0
    i4ia := 0
    i4na := 0
    i6ia := []
    i6na := []
    mid := []
    ort := 0
    ipreach_p := 0
    ipreach_value := [] }

/-- Return codes of the attribute parser used by the decoders
(bgp_attr.h, outside the source excerpt): the decoders return either
BGP_ATTR_PARSE_PROCEED or BGP_ATTR_PARSE_ERROR_NOTIFYPLS. -/
inductive BgpAttrParseRet where
  | proceed
  | error_notifypls
deriving DecidableEq, Repr

/-- Result of one decoder call: the updated attribute state, the stream as
left behind, and the returned parse status. -/
structure DecodeOut where
  attr : MpBgplsNlri
  s : FrrStream
  status : BgpAttrParseRet
deriving DecidableEq, Repr

/-- Descriptor sub-TLV switch writing the local node, shared verbatim by
bgp_mp_node_decode (lines 87 to 149), the local-descriptor branch of
bgp_mp_link_decode (lines 199 to 273) and of bgp_mp_prefix_decode (lines
470 to 543): AS, BGP-LS id and area id copy 4 bytes into local_node.value,
IGP router id dispatches on the declared length into local_node.value, and
an unrecognized sub-TLV type or router-id length only logs, consuming
nothing. -/
def descSubTlvLocal (a : MpBgplsNlri) (s : FrrStream) (node_type node_length : Nat) :
    MpBgplsNlri × FrrStream :=
  if node_type = BGP_NLRI_TLV_AUTONOMOUS_SYSTEM then
    let r := stream_get s BGP_NLRI_TLV_LEN_AUTONOMOUS_SYSTEM
    ({ a with local_node := copyIn a.local_node r.1 }, r.2)
  else if node_type = BGP_NLRI_TLV_BGP_LS_IDENTIFIER then
    let r := stream_get s BGP_NLRI_TLV_LEN_BGP_LS_IDENTIFIER
    ({ a with local_node := copyIn a.local_node r.1 }, r.2)
  else if node_type = BGP_NLRI_TLV_AREA_ID then
    let r := stream_get s BGP_NLRI_TLV_LEN_AREA_ID
    ({ a with local_node := copyIn a.local_node r.1 }, r.2)
  else if node_type = BGP_NLRI_TLV_IGP_ROUTER_ID then
    if node_length = BGP_NLRI_IS_IS_NON_PSEUDONODE then
      let r := stream_get s BGP_NLRI_IS_IS_NON_PSEUDONODE
      ({ a with local_node := copyIn a.local_node r.1 }, r.2)
    else if node_length = BGP_NLRI_IS_IS_PSEUDONODE then
      let r := stream_get s BGP_NLRI_IS_IS_PSEUDONODE
      ({ a with local_node := copyIn a.local_node r.1 }, r.2)
    else if node_length = BGP_NLRI_OSPF_NON_PSEUDONODE then
      let r := stream_get s BGP_NLRI_OSPF_NON_PSEUDONODE
      ({ a with local_node := copyIn a.local_node r.1 }, r.2)
    else if node_length = BGP_NLRI_OSPF_PSEUDONODE then
      let r := stream_get s BGP_NLRI_OSPF_PSEUDONODE
      ({ a with local_node := copyIn a.local_node r.1 }, r.2)
    else (a, s)
  else (a, s)

/-- Descriptor sub-TLV switch of the remote-descriptor branch of
bgp_mp_link_decode (lines 283 to 357). It is not symmetric to the local
branch: the AS, BGP-LS id and area id cases of the source copy into
local_node.value, and only the IGP router id cases copy into
remote_node.value. -/
def descSubTlvRemote (a : MpBgplsNlri) (s : FrrStream) (node_type node_length : Nat) :
    MpBgplsNlri × FrrStream :=
  if node_type = BGP_NLRI_TLV_AUTONOMOUS_SYSTEM then
    let r := stream_get s BGP_NLRI_TLV_LEN_AUTONOMOUS_SYSTEM
    ({ a with local_node := copyIn a.local_node r.1 }, r.2)
  else if node_type = BGP_NLRI_TLV_BGP_LS_IDENTIFIER then
    let r := stream_get s BGP_NLRI_TLV_LEN_BGP_LS_IDENTIFIER
    ({ a with local_node := copyIn a.local_node r.1 }, r.2)
  else if node_type = BGP_NLRI_TLV_AREA_ID then
    let r := stream_get s BGP_NLRI_TLV_LEN_AREA_ID
    ({ a with local_node := copyIn a.local_node r.1 }, r.2)
  else if node_type = BGP_NLRI_TLV_IGP_ROUTER_ID then
    if node_length = BGP_NLRI_IS_IS_NON_PSEUDONODE then
      let r := stream_get s BGP_NLRI_IS_IS_NON_PSEUDONODE
      ({ a with remote_node := copyIn a.remote_node r.1 }, r.2)
    else if node_length = BGP_NLRI_IS_IS_PSEUDONODE then
      let r := stream_get s BGP_NLRI_IS_IS_PSEUDONODE
      ({ a with remote_node := copyIn a.remote_node r.1 }, r.2)
    else if node_length = BGP_NLRI_OSPF_NON_PSEUDONODE then
      let r := stream_get s BGP_NLRI_OSPF_NON_PSEUDONODE
      ({ a with remote_node := copyIn a.remote_node r.1 }, r.2)
    else if node_length = BGP_NLRI_OSPF_PSEUDONODE then
      let r := stream_get s BGP_NLRI_OSPF_PSEUDONODE
      ({ a with remote_node := copyIn a.remote_node r.1 }, r.2)
    else (a, s)
  else (a, s)

/-- Descriptor sub-TLV loop of the local branch of bgp_mp_link_decode (lines
195 to 274) and bgp_mp_prefix_decode (lines 465 to 544): while the read
position is below the scope end offset, read a sub-TLV header and dispatch.
Fuel bounds the number of iterations; none marks exhaustion, which mirrors
the C loop spinning without progress on inputs where no read advances. -/
def descLoopLocal : Nat → MpBgplsNlri → FrrStream → Nat → Option (MpBgplsNlri × FrrStream)
  | 0, _, _, _ => none
  | fuel + 1, a, s, endp =>
    if stream_get_getp s < endp then
      let h1 := stream_getw s
      let h2 := stream_getw h1.2
      let st := descSubTlvLocal a h2.2 h1.1 h2.1
      descLoopLocal fuel st.1 st.2 endp
    else some (a, s)

/-- Descriptor sub-TLV loop of the remote branch of bgp_mp_link_decode
(lines 279 to 358), dispatching to the remote descriptor switch. -/
def descLoopRemote : Nat → MpBgplsNlri → FrrStream → Nat → Option (MpBgplsNlri × FrrStream)
  | 0, _, _, _ => none
  | fuel + 1, a, s, endp =>
    if stream_get_getp s < endp then
      let h1 := stream_getw s
      let h2 := stream_getw h1.2
      let st := descSubTlvRemote a h2.2 h1.1 h2.1
      descLoopRemote fuel st.1 st.2 endp
    else some (a, s)

/-- Multi-topology id read loop (lines 416 to 420 and 552 to 556): with
n = node_length / 2, write n consecutive 16-bit words into the mid value
array starting at index 0. -/
def midLoop : Nat → Nat → List Nat → FrrStream → List Nat × FrrStream
  | 0, _, mid, s => (mid, s)
  | k + 1, i, mid, s =>
    let w := stream_getw s
    midLoop k (i + 1) (setExt mid i w.1) w.2

/-- Node NLRI decoder bgp_mp_node_decode (lines 63 to 154): read the 9-byte
protocol header and one top-level TLV header (a type other than Local Node
Descriptors only logs), then run the descriptor sub-TLV loop over the scope
ending at the declared TLV end. The while body of the source ends in an
unconditional break (line 151), so the loop body runs at most once; the
embedding renders it as a single conditional. The function always returns
BGP_ATTR_PARSE_PROCEED. -/
def bgp_mp_node_decode (a : MpBgplsNlri) (s0 : FrrStream) : DecodeOut :=
  let c1 := stream_getc s0
  let c2 := stream_getq c1.2
  let c3 := stream_getw c2.2
  let c4 := stream_getw c3.2
  let a1 := { a with ext_hdr := ⟨c1.1, c2.1⟩ }
  let nlri_node_endp := stream_get_getp c4.2 + c4.1
  let st :=
    if stream_get_getp c4.2 < nlri_node_endp then
      let h1 := stream_getw c4.2
      let h2 := stream_getw h1.2
      descSubTlvLocal a1 h2.2 h1.1 h2.1
    else (a1, c4.2)
  ⟨st.1, st.2, BgpAttrParseRet.proceed⟩

/-- Link NLRI decoder bgp_mp_link_decode (lines 176 to 428): read the 9-byte
protocol header and one top-level TLV header, then dispatch on the type.
Descriptor types 256 and 257 run the sub-TLV loops; every other recognized
case first reads a further 4-byte header-shaped pair of words out of the
stream (the value region) before its fixed-width fields; an unrecognized
type consumes nothing. The function always returns BGP_ATTR_PARSE_PROCEED;
fuel only bounds the descriptor loops. -/
def bgp_mp_link_decode (fuel : Nat) (a : MpBgplsNlri) (s0 : FrrStream) : Option DecodeOut :=
  let c1 := stream_getc s0
  let c2 := stream_getq c1.2
  let c3 := stream_getw c2.2
  let c4 := stream_getw c3.2
  let a1 := { a with ext_hdr := ⟨c1.1, c2.1⟩ }
  let nlri_node_endp := stream_get_getp c4.2 + c4.1
  if c3.1 = BGP_NLRI_TLV_LOCAL_NODE_DESCRIPTORS then
    (descLoopLocal fuel a1 c4.2 nlri_node_endp).map
      (fun p => ⟨p.1, p.2, BgpAttrParseRet.proceed⟩)
  else if c3.1 = BGP_NLRI_TLV_REMOTE_NODE_DESCRIPTORS then
    (descLoopRemote fuel a1 c4.2 nlri_node_endp).map
      (fun p => ⟨p.1, p.2, BgpAttrParseRet.proceed⟩)
  else if c3.1 = BGP_NLRI_TLV_LINK_LOCAL_REMOTE_IDENTIFIERS then
    let h1 := stream_getw c4.2
    let h2 := stream_getw h1.2
    let v1 := stream_getw h2.2
    let v2 := stream_getw v1.2
    some ⟨{ a1 with llri_local := v1.1, llri_remote := v2.1 }, v2.2,
      BgpAttrParseRet.proceed⟩
  else if c3.1 = BGP_NLRI_TLV_IPV4_INTERFACE_ADDRESS then
    let h1 := stream_getw c4.2
    let h2 := stream_getw h1.2
    let v := stream_get_ipv4 h2.2
    some ⟨{ a1 with i4ia := v.1 }, v.2, BgpAttrParseRet.proceed⟩
  else if c3.1 = BGP_NLRI_TLV_IPV4_NEIGHBOR_ADDRESS then
    let h1 := stream_getw c4.2
    let h2 := stream_getw h1.2
    let v := stream_get_ipv4 h2.2
    some ⟨{ a1 with i4na := v.1 }, v.2, BgpAttrParseRet.proceed⟩
  else if c3.1 = BGP_NLRI_TLV_IPV6_INTERFACE_ADDRESS then
    let h1 := stream_getw c4.2
    let h2 := stream_getw h1.2
    let v := stream_get h2.2 BGP_NLRI_TLV_LEN_IPV6_INTERFACE_ADDRESS
    some ⟨{ a1 with i6ia := copyIn a1.i6ia v.1 }, v.2, BgpAttrParseRet.proceed⟩
  else if c3.1 = BGP_NLRI_TLV_IPV6_NEIGHBOR_ADDRESS then
    let h1 := stream_getw c4.2
    let h2 := stream_getw h1.2
    let v := stream_get h2.2 BGP_NLRI_TLV_LEN_IPV6_NEIGHBOR_ADDRESS
    some ⟨{ a1 with i6ia := copyIn a1.i6ia v.1 }, v.2, BgpAttrParseRet.proceed⟩
  else if c3.1 = BGP_NLRI_TLV_MULTI_TOPOLOGY_ID then
    let h1 := stream_getw c4.2
    let h2 := stream_getw h1.2
    let m := midLoop (h2.1 / 2) 0 a1.mid h2.2
    some ⟨{ a1 with mid := m.1 }, m.2, BgpAttrParseRet.proceed⟩
  else
    some ⟨a1, c4.2, BgpAttrParseRet.proceed⟩

/-- Top-level TLV type as the prefix decoder reads it: the 16-bit word after
the protocol octet and the 64-bit identifier. -/
def prefixTopType (s0 : FrrStream) : Nat :=
  (stream_getw (stream_getq (stream_getc s0).2).2).1

/-- Prefix NLRI decoder bgp_mp_prefix_decode (lines 446 to 587): read the
9-byte protocol header and one top-level TLV header, then dispatch on the
type. Local Node Descriptors runs the sub-TLV loop; Multi-Topology id, OSPF
route type and IP reachability each first read a further 4-byte
header-shaped pair of words out of the value region; IP reachability then
reads the prefix octet and passes that octet (a bit count) as the byte count
of stream_get. Every recognized type returns BGP_ATTR_PARSE_PROCEED; any
other type returns BGP_ATTR_PARSE_ERROR_NOTIFYPLS. -/
def bgp_mp_prefix_decode (fuel : Nat) (a : MpBgplsNlri) (s0 : FrrStream) : Option DecodeOut :=
  let c1 := stream_getc s0
  let c2 := stream_getq c1.2
  let c3 := stream_getw c2.2
  let c4 := stream_getw c3.2
  let a1 := { a with ext_hdr := ⟨c1.1, c2.1⟩ }
  if c3.1 = BGP_NLRI_TLV_LOCAL_NODE_DESCRIPTORS then
    let nlri_node_endp := stream_get_getp c4.2 + c4.1
    (descLoopLocal fuel a1 c4.2 nlri_node_endp).map
      (fun p => ⟨p.1, p.2, BgpAttrParseRet.proceed⟩)
  else if c3.1 = BGP_NLRI_TLV_MULTI_TOPOLOGY_ID then
    let h1 := stream_getw c4.2
    let h2 := stream_getw h1.2
    let m := midLoop (h2.1 / 2) 0 a1.mid h2.2
    some ⟨{ a1 with mid := m.1 }, m.2, BgpAttrParseRet.proceed⟩
  else if c3.1 = BGP_NLRI_TLV_OSPF_ROUTE_TYPE then
    let h1 := stream_getw c4.2
    let h2 := stream_getw h1.2
    let v := stream_getc h2.2
    some ⟨{ a1 with ort := v.1 }, v.2, BgpAttrParseRet.proceed⟩
  else if c3.1 = BGP_NLRI_TLV_IP_REACHABILITY_INFORMATION then
    let h1 := stream_getw c4.2
    let h2 := stream_getw h1.2
    let p := stream_getc h2.2
    let a2 := { a1 with ipreach_p := p.1 }
    let v := stream_get p.2 a2.ipreach_p
    some ⟨{ a2 with ipreach_value := copyIn a2.ipreach_value v.1 }, v.2,
      BgpAttrParseRet.proceed⟩
  else
    some ⟨a1, c4.2, BgpAttrParseRet.error_notifypls⟩

/-!
Attribute TLV walker and formatter registry
(show_bgp_linkstate_print_detail, lines 1094 to 1198, and the show_vty
formatters above it). The attribute buffer is a byte list whose offset 0
holds the te_tlv_nlri_header the caller passes as te.header: the walker
starts dispatching at that header and bounds the walk by the 16-bit length
field of that header. The size macros BGP_TLV_HDR_SIZE, BGP_TLV_SIZE and
BGP_TLV_HDR_NEXT live in bgp_ls.h, outside the source excerpt, and are
modelled from the spec: a formatter consumes header plus value, the bare
header is 4 bytes, and the next header follows the value.
-/

/-- TLV type field: 16-bit word at the TLV offset. -/
def attrTlvType (buf : List Nat) (off : Nat) : Nat :=
  beBytes buf off 2

/-- TLV length field: 16-bit word 2 bytes into the TLV. -/
def attrTlvLen (buf : List Nat) (off : Nat) : Nat :=
  beBytes buf (off + 2) 2

/-- Modelled from the spec: size of the bare 4-byte TLV header
(BGP_TLV_HDR_SIZE of bgp_ls.h). -/
def BGP_TLV_HDR_SIZE : Nat := 4

/-- Modelled from the spec: full size of a TLV, header plus declared value
(BGP_TLV_SIZE of bgp_ls.h). -/
def BGP_TLV_SIZE (buf : List Nat) (off : Nat) : Nat :=
  BGP_TLV_HDR_SIZE + attrTlvLen buf off

/-- Attribute TLV type codes with a registered formatter: the case labels of
the walker switch (lines 1109 to 1191). Modelled from the spec: the numeric
values are the RFC 7752 section 3.3 code points named by the case-label
macros, 263 for the multi-topology id and 1024 to 1031, 1088 to 1098 and
1152 to 1157 for the node, link and prefix attribute TLVs. -/
def knownAttrTypes : List Nat :=
  [263,
   1024, 1025, 1026, 1027, 1028, 1029, 1030, 1031,
   1088, 1089, 1090, 1091, 1092, 1093, 1094, 1095, 1096, 1097, 1098,
   1152, 1153, 1154, 1155, 1156, 1157]

/-- What one walker iteration renders: a registered formatter for the TLV
type, or the unknown-TLV fallback show_vty_unknown_tlv with its hex dump,
which the source takes from the TLV header start (the loop over v[i] at
lines 1069 to 1077 indexes from the header, not the value). -/
inductive RenderAction where
  | registered (t : Nat)
  | unknownTlv (t l : Nat) (dump : List Nat)
deriving DecidableEq, Repr

/-- One iteration of the walker loop body at offset off: dispatch on the TLV
type; a registered formatter returns BGP_TLV_SIZE (header plus value) while
show_vty_unknown_tlv returns only BGP_TLV_HDR_SIZE (line 1088); the loop
advance is BGP_TLV_HDR_NEXT in either case, header plus value (next is
always NULL in the source). Result: rendered action, value added to the
running sum, offset of the next inspected header. -/
def walkStep (buf : List Nat) (off : Nat) : RenderAction × Nat × Nat :=
  let t := attrTlvType buf off
  let l := attrTlvLen buf off
  if t ∈ knownAttrTypes then
    (RenderAction.registered t, BGP_TLV_SIZE buf off, off + BGP_TLV_SIZE buf off)
  else
    (RenderAction.unknownTlv t l ((buf.drop off).take l), BGP_TLV_HDR_SIZE,
      off + BGP_TLV_SIZE buf off)

/-- Trace of the walker loop: pairs of the offset of each header the walker
dispatches and the running sum right after that TLV renders. The loop
continues while the running sum is below the total declared length of the
attribute header at offset 0 (the condition sum below te.header.nlri_length
at line 1106); fuel bounds the iteration count. -/
def walkTrace (buf : List Nat) (total : Nat) : Nat → Nat → Nat → List (Nat × Nat)
  | 0, _, _ => []
  | fuel + 1, off, sum =>
    if sum < total then
      (off, sum + (walkStep buf off).2.1) ::
        walkTrace buf total fuel ((walkStep buf off).2.2) (sum + (walkStep buf off).2.1)
    else []

/-- Final running sum of the walker loop, none when fuel runs out before the
loop condition fails. -/
def walkSum (buf : List Nat) (total : Nat) : Nat → Nat → Nat → Option Nat
  | 0, _, _ => none
  | fuel + 1, off, sum =>
    if sum < total then
      walkSum buf total fuel ((walkStep buf off).2.2) (sum + (walkStep buf off).2.1)
    else some sum

/-- Result of show_bgp_linkstate_print_detail: CMD_WARNING when the header
type field is zero, otherwise the final running sum. -/
inductive ShowDetailResult where
  | warning
  | rendered (sum : Nat)
deriving DecidableEq, Repr

/-- Main show function show_bgp_linkstate_print_detail (lines 1094 to 1198):
return CMD_WARNING when the nlri_type of the attribute header is zero,
otherwise walk the TLV chain from the attribute header at offset 0 and
return the accumulated sum. -/
def show_bgp_linkstate_print_detail (fuel : Nat) (buf : List Nat) : Option ShowDetailResult :=
  if attrTlvType buf 0 = 0 then some ShowDetailResult.warning
  else (walkSum buf (attrTlvLen buf 0) fuel 0 0).map ShowDetailResult.rendered

/-- Offset one past the last byte the attribute declares: the value of the
attribute header at offset 0 spans bytes 4 up to this end. -/
def declaredEnd (buf : List Nat) : Nat :=
  BGP_TLV_HDR_SIZE + attrTlvLen buf 0

/-- The safety property claim C1 asserts of the walker, stated over the
dispatch trace: every dispatched TLV header (which every formatter reads)
lies wholly below the declared end of the attribute, and after each rendered
TLV the running sum equals the offset of the next header the walker
inspects. -/
abbrev walkerClaimC1 (fuel : Nat) (buf : List Nat) : Prop :=
  (∀ p ∈ walkTrace buf (attrTlvLen buf 0) fuel 0 0,
      p.1 + BGP_TLV_HDR_SIZE ≤ declaredEnd buf)
  ∧ List.Chain' (fun p q => p.2 = q.1) (walkTrace buf (attrTlvLen buf 0) fuel 0 0)

/-- Extended-tag attribute formatter show_vty_bgp_nlri_tlv_extended_tag
(lines 972 to 997): element count n is the declared length divided by 8
(the sizeof of the address of an 8-byte element on an LP64 host, integer
division discarding any remainder); each rendered value is the 64-bit
element passed through the 32-bit ntohl conversion, so truncated to its low
32 bits of the network-order value; the return is BGP_TLV_SIZE. There is no
length-validity check of any kind in the source. -/
def show_vty_bgp_nlri_tlv_extended_tag (buf : List Nat) (off : Nat) : List Nat × Nat :=
  let n := attrTlvLen buf off / 8
  ((List.range n).map (fun i => beBytes buf (off + BGP_TLV_HDR_SIZE + 8 * i) 8 % 2 ^ 32),
    BGP_TLV_SIZE buf off)

/-!
IS-IS identifier formatter lib_isis_format_id (lib/isis.c lines 27 to 60)
and its four-slot rotating static buffer ring.
-/

/-- Lowercase hexadecimal digit character. -/
def hexDigitChar (n : Nat) : Char :=
  if n < 10 then Char.ofNat (48 + n) else Char.ofNat (87 + n)

/-- Two-digit lowercase hexadecimal rendering of one octet (format %02x). -/
def hexPair (b : Nat) : String :=
  String.mk [hexDigitChar (b / 16 % 16), hexDigitChar (b % 16)]

/-- Pure formatting part of lib_isis_format_id: none models a NULL id
pointer; otherwise the list holds the len bytes behind the pointer. A NULL
id gives unknown, fewer than 6 bytes gives Short ID, otherwise the first six
bytes render as three dot-separated groups of two hex pairs, with a dot and
the seventh byte appended at offset 14 when len exceeds 6 and a dash and the
eighth byte appended at offset 17 when len exceeds 7. -/
def lib_isis_format_id_str : Option (List Nat) → String
  | none => "unknown"
  | some id =>
    if id.length < 6 then "Short ID"
    else
      let base := hexPair (byteAt id 0) ++ hexPair (byteAt id 1) ++ "." ++
        hexPair (byteAt id 2) ++ hexPair (byteAt id 3) ++ "." ++
        hexPair (byteAt id 4) ++ hexPair (byteAt id 5)
      let s1 := if 6 < id.length then base ++ "." ++ hexPair (byteAt id 6) else base
      if 7 < id.length then s1 ++ "-" ++ hexPair (byteAt id 7) else s1

/-- Successor in the four-slot buffer ring: cur_buf increments and wraps to
zero at FORMAT_BUF_COUNT. -/
def nextBufIdx (c : Fin 4) : Fin 4 :=
  if h : c.val + 1 < 4 then ⟨c.val + 1, h⟩ else ⟨0, by omega⟩

/-- The process-wide state of lib_isis_format_id: the four static buffers
and the current ring position. -/
structure FormatRing where
  buf_ring : Fin 4 → String
  cur_buf : Fin 4

/-- Stateful lib_isis_format_id: advance the ring position, format into the
buffer at the new position, and return the new state, the index of the
buffer handed back (the returned pointer), and its contents. -/
def lib_isis_format_id (st : FormatRing) (id : Option (List Nat)) :
    FormatRing × Fin 4 × String :=
  let cur := nextBufIdx st.cur_buf
  let s := lib_isis_format_id_str id
  (⟨Function.update st.buf_ring cur s, cur⟩, cur, s)

/-!
Concrete wire buffers used to settle the claims.
-/

/-- Node NLRI with a Local Node Descriptors TLV holding two sub-TLVs: an AS
sub-TLV with value 5 and a BGP-LS identifier sub-TLV with value 7. -/
def nodeTwoSubTlvBuf : List Nat :=
  [1, 0, 0, 0, 0, 0, 0, 0, 1,
   1, 0, 0, 16,
   2, 0, 0, 4, 0, 0, 0, 5,
   2, 1, 0, 4, 0, 0, 0, 7]

/-- Prefix NLRI of the spec scenario: protocol 1, identifier 1, an IP
Reachability Information TLV of declared length 5 whose value is the prefix
bit-length octet 24 followed by the three bytes 10, 0, 0. -/
def prefixReachBuf : List Nat :=
  [1, 0, 0, 0, 0, 0, 0, 0, 1,
   1, 9, 0, 5,
   24, 10, 0, 0]

/-- Link NLRI with a Remote Node Descriptors TLV holding one AS sub-TLV with
value 5. -/
def linkRemoteAsBuf : List Nat :=
  [1, 0, 0, 0, 0, 0, 0, 0, 1,
   1, 1, 0, 8,
   2, 0, 0, 4, 0, 0, 0, 5]

/-- Link NLRI of the spec scenario: a Link Local/Remote Identifiers TLV of
declared length 4 with value bytes 0, 5, 0, 9. -/
def linkIdentifiersBuf : List Nat :=
  [1, 0, 0, 0, 0, 0, 0, 0, 1,
   1, 2, 0, 4,
   0, 5, 0, 9]

/-- Attribute buffer whose header TLV carries an unregistered type 0x1234
and declared length 6, followed by the six value bytes and four further
bytes at the position the walker inspects after the declared end. -/
def walkerUnknownBuf : List Nat :=
  [18, 52, 0, 6,
   1, 2, 3, 4, 5, 6,
   0, 0, 0, 0]

/-- Extended-tag attribute TLV with declared length 10: one full 8-byte
element followed by a 2-byte remainder. -/
def extendedTagBuf : List Nat :=
  [4, 130, 0, 10,
   1, 2, 3, 4, 5, 6, 7, 8,
   9, 10]

/-- Attribute TLV with unregistered type 0xffff and declared length 0. -/
def unknownZeroLenBuf : List Nat :=
  [255, 255, 0, 0]

/-- Attribute TLV with the registered multi-topology id type 263 and
declared length 2. -/
def mtidAttrBuf : List Nat :=
  [1, 7, 0, 2, 0, 5]

/-!
Theorems settling the claims.
-/

/-- Claim C1, counterexample. The claim asserts that the attribute TLV
walker never lets a dispatched formatter read at or past the declared end of
the attribute and that after each rendered TLV the running consumed-byte
total equals the offset of the next inspected TLV header. On the concrete
attribute walkerUnknownBuf, whose header TLV has an unregistered type and
declared length 6, the unknown-TLV formatter returns only the 4-byte header
size while the walker advances past the whole value, so after the first
rendered TLV the running total is 4 but the next inspected header sits at
offset 10, at the declared end of the attribute: both conjuncts fail. -/
theorem claim_C1_counterexample : ¬ walkerClaimC1 12 walkerUnknownBuf := by decide

/-- Claim C1, amended. The running total advances in lockstep with the wire
offset only for TLVs whose formatter returns the full TLV size: for every
dispatched TLV whose type code has a registered formatter, or whose declared
length is zero, the offset the walker advances to equals the dispatch offset
plus the value the formatter returns, so the running total tracks the next
inspected header; a nonzero-length unknown TLV breaks this lockstep (the
formatter returns 4 while the walker advances 4 plus the length), after
which the walker can inspect headers at or past the declared end. -/
theorem claim_C1_theorem (buf : List Nat) (off : Nat)
    (h : attrTlvType buf off ∈ knownAttrTypes ∨ attrTlvLen buf off = 0) :
    (walkStep buf off).2.2 = off + (walkStep buf off).2.1 := by
  rcases h with h | h
  · simp [walkStep, h]
  · by_cases hk : attrTlvType buf off ∈ knownAttrTypes <;>
      simp [walkStep, hk, BGP_TLV_SIZE, BGP_TLV_HDR_SIZE, h]

/-- Claim C1, witness: the amended lockstep property at the concrete
registered multi-topology id TLV of mtidAttrBuf. -/
theorem claim_C1_witness :
    (attrTlvType mtidAttrBuf 0 ∈ knownAttrTypes ∨ attrTlvLen mtidAttrBuf 0 = 0) ∧
    (walkStep mtidAttrBuf 0).2.2 = 0 + (walkStep mtidAttrBuf 0).2.1 :=
  ⟨Or.inl (by decide), claim_C1_theorem mtidAttrBuf 0 (Or.inl (by decide))⟩

/-- Claim C2: the node NLRI decoder is claimed to decode every sub-TLV of a
descriptor scope, exiting only once the read position reaches the scope end.
Evaluating bgp_mp_node_decode at the failing input nodeTwoSubTlvBuf, whose
Local Node Descriptors TLV declares a 16-byte scope holding an AS sub-TLV
and a BGP-LS identifier sub-TLV, the decoder consumes only the first
sub-TLV: the final read position is 21, short of the scope end 29, because
the while body ends in an unconditional break. -/
theorem claim_C2_theorem :
    (bgp_mp_node_decode initAttr ⟨nodeTwoSubTlvBuf, 0⟩).s.getp = 21 ∧
    (bgp_mp_node_decode initAttr ⟨nodeTwoSubTlvBuf, 0⟩).attr.local_node = [0, 0, 0, 5] ∧
    (bgp_mp_node_decode initAttr ⟨nodeTwoSubTlvBuf, 0⟩).status = BgpAttrParseRet.proceed ∧
    21 < 29 := by decide

/-- Claim C3: the spec scenario expects the IP reachability TLV of
prefixReachBuf to decode to prefix length 24 with the three value bytes 10,
0, 0. Evaluating bgp_mp_prefix_decode there instead yields prefix octet 0
and an empty value: the decoder first consumes the four value bytes as a
bogus inner header, then reads the prefix octet from an exhausted stream,
and in general passes the prefix bit-length itself to stream_get as a byte
count rather than reading ceil(bits / 8) bytes. -/
theorem claim_C3_theorem :
    (bgp_mp_prefix_decode 4 initAttr ⟨prefixReachBuf, 0⟩).map
      (fun r => (r.attr.ipreach_p, r.attr.ipreach_value, r.status)) =
    some (0, [], BgpAttrParseRet.proceed) := by decide

/-- Claim C4: the prefix NLRI decoder returns the fatal
BGP_ATTR_PARSE_ERROR_NOTIFYPLS status exactly when the top-level TLV type it
reads is none of Local Node Descriptors, Multi-Topology id, OSPF route type
or IP Reachability Information, while the node NLRI decoder returns
BGP_ATTR_PARSE_PROCEED on every input whatever the top-level type. -/
theorem claim_C4_theorem :
    (∀ (fuel : Nat) (a : MpBgplsNlri) (s : FrrStream) (r : DecodeOut),
        bgp_mp_prefix_decode fuel a s = some r →
        (r.status = BgpAttrParseRet.error_notifypls ↔
          prefixTopType s ∉ [BGP_NLRI_TLV_LOCAL_NODE_DESCRIPTORS,
            BGP_NLRI_TLV_MULTI_TOPOLOGY_ID, BGP_NLRI_TLV_OSPF_ROUTE_TYPE,
            BGP_NLRI_TLV_IP_REACHABILITY_INFORMATION])) ∧
    (∀ (a : MpBgplsNlri) (s : FrrStream),
        (bgp_mp_node_decode a s).status = BgpAttrParseRet.proceed) := by
  constructor
  · intro fuel a s r h
    unfold bgp_mp_prefix_decode at h
    dsimp only [] at h
    unfold prefixTopType
    split_ifs at h with h1 h2 h3 h4
    · rcases Option.map_eq_some'.mp h with ⟨p, -, rfl⟩
      simp [h1]
    · rw [Option.some.injEq] at h
      subst h
      simp [h2]
    · rw [Option.some.injEq] at h
      subst h
      simp [h3]
    · rw [Option.some.injEq] at h
      subst h
      simp [h4]
    · rw [Option.some.injEq] at h
      subst h
      simp [h1, h2, h3, h4]
  · intro a s
    rfl

/-- Claim C4, witness: on the empty stream the prefix decoder reads type 0,
hits the default branch and returns the fatal status, and the node decoder
returns the proceed status. -/
theorem claim_C4_witness :
    (∃ r, bgp_mp_prefix_decode 5 initAttr ⟨[], 0⟩ = some r ∧
      (r.status = BgpAttrParseRet.error_notifypls ↔
        prefixTopType ⟨[], 0⟩ ∉ [BGP_NLRI_TLV_LOCAL_NODE_DESCRIPTORS,
          BGP_NLRI_TLV_MULTI_TOPOLOGY_ID, BGP_NLRI_TLV_OSPF_ROUTE_TYPE,
          BGP_NLRI_TLV_IP_REACHABILITY_INFORMATION])) ∧
    (bgp_mp_node_decode initAttr ⟨[], 0⟩).status = BgpAttrParseRet.proceed :=
  ⟨⟨_, rfl, claim_C4_theorem.1 5 initAttr ⟨[], 0⟩ _ rfl⟩,
    claim_C4_theorem.2 initAttr ⟨[], 0⟩⟩

/-- Claim C5: inside a Remote Node Descriptors TLV every descriptor sub-TLV
is claimed to populate the remote node and leave the local node unchanged.
Evaluating bgp_mp_link_decode at the failing input linkRemoteAsBuf, a link
NLRI whose type-257 TLV holds one AS sub-TLV with value bytes 0, 0, 0, 5,
the decoder instead copies those bytes into the local node buffer and leaves
the remote node untouched: the remote branch of the source writes
local_node.value for the AS, BGP-LS identifier and area id cases. -/
theorem claim_C5_theorem :
    (bgp_mp_link_decode 8 initAttr ⟨linkRemoteAsBuf, 0⟩).map
      (fun r => (r.attr.local_node, r.attr.remote_node, r.status)) =
    some ([0, 0, 0, 5], [], BgpAttrParseRet.proceed) := by decide

/-- Claim C6: the spec scenario expects the type-258 TLV of
linkIdentifiersBuf, declared length 4 with value bytes 0, 5, 0, 9, to decode
to local identifier 5 and remote identifier 9 with no additional header
consumed. Evaluating bgp_mp_link_decode there instead consumes the four
value bytes as a further header-shaped pair of words and then reads both
identifiers from the exhausted stream, yielding 0 and 0 with the read
position at the buffer end. -/
theorem claim_C6_theorem :
    (bgp_mp_link_decode 8 initAttr ⟨linkIdentifiersBuf, 0⟩).map
      (fun r => (r.attr.llri_local, r.attr.llri_remote, r.s.getp)) =
    some (0, 0, 17) := by decide

/-- Claim C7, counterexample. The claim asserts that an Extended-Tag
attribute TLV whose declared length 10 is not a multiple of the 8-byte
element width fails with a malformed-array error rather than rendering one
element. The formatter has no such failure path: on extendedTagBuf it
renders exactly one element and returns the ordinary TLV size 14. -/
theorem claim_C7_counterexample :
    attrTlvLen extendedTagBuf 0 = 10 ∧
    (show_vty_bgp_nlri_tlv_extended_tag extendedTagBuf 0).1.length = 1 ∧
    (show_vty_bgp_nlri_tlv_extended_tag extendedTagBuf 0).2 = 14 := by decide

/-- Claim C7, amended: the extended-tag formatter performs no validity check
on the declared length; it always renders exactly the integer quotient of
the declared length by 8 elements, silently discarding up to seven remainder
bytes, and returns the header size plus the declared length. -/
theorem claim_C7_theorem (buf : List Nat) (off : Nat) :
    (show_vty_bgp_nlri_tlv_extended_tag buf off).1.length = attrTlvLen buf off / 8 ∧
    (show_vty_bgp_nlri_tlv_extended_tag buf off).2 =
      BGP_TLV_HDR_SIZE + attrTlvLen buf off := by
  constructor
  · simp [show_vty_bgp_nlri_tlv_extended_tag]
  · simp [show_vty_bgp_nlri_tlv_extended_tag, BGP_TLV_SIZE]

/-- Claim C8: an attribute TLV with no registered formatter and declared
length 0 renders through the unknown-TLV formatter as an Unknown TLV entry
with an empty dump, the formatter returns exactly the 4 header bytes, and
the walker advances the inspected offset by exactly those 4 bytes. -/
theorem claim_C8_theorem (buf : List Nat) (off : Nat)
    (h1 : attrTlvType buf off ∉ knownAttrTypes) (h2 : attrTlvLen buf off = 0) :
    walkStep buf off =
      (RenderAction.unknownTlv (attrTlvType buf off) 0 [], BGP_TLV_HDR_SIZE,
        off + BGP_TLV_HDR_SIZE) := by
  simp [walkStep, h1, h2, BGP_TLV_SIZE, BGP_TLV_HDR_SIZE]

/-- Claim C8, witness: the unknown-TLV step at the concrete zero-length
unregistered TLV of unknownZeroLenBuf. -/
theorem claim_C8_witness :
    attrTlvType unknownZeroLenBuf 0 ∉ knownAttrTypes ∧
    attrTlvLen unknownZeroLenBuf 0 = 0 ∧
    walkStep unknownZeroLenBuf 0 =
      (RenderAction.unknownTlv (attrTlvType unknownZeroLenBuf 0) 0 [], BGP_TLV_HDR_SIZE,
        0 + BGP_TLV_HDR_SIZE) :=
  ⟨by decide, by decide, claim_C8_theorem unknownZeroLenBuf 0 (by decide) (by decide)⟩

/-- Claim C9: the node NLRI decoder returns BGP_ATTR_PARSE_PROCEED on every
input, and every terminating run of the link NLRI decoder returns
BGP_ATTR_PARSE_PROCEED: neither function has a control path that returns an
error status, whatever TLV types or declared lengths appear. -/
theorem claim_C9_theorem :
    (∀ (a : MpBgplsNlri) (s : FrrStream),
        (bgp_mp_node_decode a s).status = BgpAttrParseRet.proceed) ∧
    (∀ (fuel : Nat) (a : MpBgplsNlri) (s : FrrStream) (r : DecodeOut),
        bgp_mp_link_decode fuel a s = some r →
        r.status = BgpAttrParseRet.proceed) := by
  constructor
  · intro a s
    rfl
  · intro fuel a s r h
    unfold bgp_mp_link_decode at h
    dsimp only [] at h
    split_ifs at h
    all_goals
      first
      | (rcases Option.map_eq_some'.mp h with ⟨p, -, rfl⟩; rfl)
      | (rw [Option.some.injEq] at h; subst h; rfl)

/-- Claim C9, witness: both decoders at the empty stream. -/
theorem claim_C9_witness :
    (bgp_mp_node_decode initAttr ⟨[], 0⟩).status = BgpAttrParseRet.proceed ∧
    ∃ r, bgp_mp_link_decode 3 initAttr ⟨[], 0⟩ = some r ∧
      r.status = BgpAttrParseRet.proceed :=
  ⟨claim_C9_theorem.1 initAttr ⟨[], 0⟩,
    ⟨_, rfl, claim_C9_theorem.2 3 initAttr ⟨[], 0⟩ _ rfl⟩⟩

/-- Claim C10: lib_isis_format_id renders a NULL id as unknown, an id
shorter than 6 bytes as Short ID, and otherwise the first six bytes as three
dot-separated groups of two hex pairs, appending a dot and the seventh byte
when the length exceeds 6 and a dash and the eighth byte when it exceeds 7;
and the string is placed in a four-slot ring advanced once per call, so the
slot a call returns is not written by the next three calls (whatever their
arguments) and is overwritten by the fourth, which returns the same slot. -/
theorem claim_C10_theorem :
    (lib_isis_format_id_str none = "unknown") ∧
    (∀ id : List Nat, id.length < 6 →
      lib_isis_format_id_str (some id) = "Short ID") ∧
    (∀ id : List Nat, id.length = 6 →
      lib_isis_format_id_str (some id) =
        hexPair (byteAt id 0) ++ hexPair (byteAt id 1) ++ "." ++
        hexPair (byteAt id 2) ++ hexPair (byteAt id 3) ++ "." ++
        hexPair (byteAt id 4) ++ hexPair (byteAt id 5)) ∧
    (∀ id : List Nat, id.length = 7 →
      lib_isis_format_id_str (some id) =
        hexPair (byteAt id 0) ++ hexPair (byteAt id 1) ++ "." ++
        hexPair (byteAt id 2) ++ hexPair (byteAt id 3) ++ "." ++
        hexPair (byteAt id 4) ++ hexPair (byteAt id 5) ++ "." ++
        hexPair (byteAt id 6)) ∧
    (∀ id : List Nat, 7 < id.length →
      lib_isis_format_id_str (some id) =
        hexPair (byteAt id 0) ++ hexPair (byteAt id 1) ++ "." ++
        hexPair (byteAt id 2) ++ hexPair (byteAt id 3) ++ "." ++
        hexPair (byteAt id 4) ++ hexPair (byteAt id 5) ++ "." ++
        hexPair (byteAt id 6) ++ "-" ++ hexPair (byteAt id 7)) ∧
    (∀ (st : FormatRing) (id0 id1 id2 id3 id4 : Option (List Nat)),
      let r0 := lib_isis_format_id st id0
      let r1 := lib_isis_format_id r0.1 id1
      let r2 := lib_isis_format_id r1.1 id2
      let r3 := lib_isis_format_id r2.1 id3
      let r4 := lib_isis_format_id r3.1 id4
      r1.2.1 ≠ r0.2.1 ∧ r2.2.1 ≠ r0.2.1 ∧ r3.2.1 ≠ r0.2.1 ∧
      r1.1.buf_ring r0.2.1 = r0.2.2 ∧ r2.1.buf_ring r0.2.1 = r0.2.2 ∧
      r3.1.buf_ring r0.2.1 = r0.2.2 ∧
      r4.2.1 = r0.2.1 ∧ r4.1.buf_ring r0.2.1 = r4.2.2) := by
  refine ⟨rfl, ?_, ?_, ?_, ?_, ?_⟩
  · intro id h
    rw [lib_isis_format_id_str, if_pos h]
  · intro id h
    have hlt : ¬ id.length < 6 := by omega
    have g6 : ¬ 6 < id.length := by omega
    have g7 : ¬ 7 < id.length := by omega
    rw [lib_isis_format_id_str, if_neg hlt, if_neg g7, if_neg g6]
  · intro id h
    have hlt : ¬ id.length < 6 := by omega
    have g6 : 6 < id.length := by omega
    have g7 : ¬ 7 < id.length := by omega
    rw [lib_isis_format_id_str, if_neg hlt, if_neg g7, if_pos g6]
  · intro id h
    have hlt : ¬ id.length < 6 := by omega
    have g6 : 6 < id.length := by omega
    rw [lib_isis_format_id_str, if_neg hlt, if_pos h, if_pos g6]
  · intro st id0 id1 id2 id3 id4
    have hne1 : ∀ c : Fin 4, nextBufIdx c ≠ c := by decide
    have hne2 : ∀ c : Fin 4, nextBufIdx (nextBufIdx c) ≠ c := by decide
    have hne3 : ∀ c : Fin 4, nextBufIdx (nextBufIdx (nextBufIdx c)) ≠ c := by decide
    have heq4 : ∀ c : Fin 4,
        nextBufIdx (nextBufIdx (nextBufIdx (nextBufIdx c))) = c := by decide
    dsimp only [lib_isis_format_id]
    refine ⟨hne1 _, hne2 _, hne3 _, ?_, ?_, ?_, heq4 _, ?_⟩
    · rw [Function.update_noteq (hne1 (nextBufIdx st.cur_buf)).symm,
        Function.update_same]
    · rw [Function.update_noteq (hne2 (nextBufIdx st.cur_buf)).symm,
        Function.update_noteq (hne1 (nextBufIdx st.cur_buf)).symm,
        Function.update_same]
    · rw [Function.update_noteq (hne3 (nextBufIdx st.cur_buf)).symm,
        Function.update_noteq (hne2 (nextBufIdx st.cur_buf)).symm,
        Function.update_noteq (hne1 (nextBufIdx st.cur_buf)).symm,
        Function.update_same]
    · rw [heq4 (nextBufIdx st.cur_buf), Function.update_same]

/-- Claim C10, witness: the short-id and full formats at concrete ids, the
eight-byte id rendering as the claimed dotted-dashed hex string. -/
theorem claim_C10_witness :
    ([1, 2, 3] : List Nat).length < 6 ∧
    lib_isis_format_id_str (some [1, 2, 3]) = "Short ID" ∧
    (7 : Nat) < ([18, 52, 86, 120, 154, 188, 222, 240] : List Nat).length ∧
    lib_isis_format_id_str (some [18, 52, 86, 120, 154, 188, 222, 240]) =
      "1234.5678.9abc.de-f0" := by
  refine ⟨by decide, claim_C10_theorem.2.1 [1, 2, 3] (by decide), by decide, ?_⟩
  rw [claim_C10_theorem.2.2.2.2.1 [18, 52, 86, 120, 154, 188, 222, 240] (by decide)]
  decide
